import Mathlib

/-!
Shallow embedding of the mapscas repository (src/mapcas/MapsGenericApi.py and
src/mapcas/MapsCasApi.py), a Python 2 client library for the MAPS telecom test
server.  The vendor transport primitives (Connect, StartScript, UserEvent,
WaitForEvent, StopScript) are external inputs: each embedded operation takes the
values those primitives would return as explicit oracle arguments and computes
what the Python code computes from them.  Python None is modelled by Option
(or by the PyV.none constructor for attribute values), Python exceptions by
Except PyErr, and machine integers by Int (Python 2 ints are arbitrary
precision, so no wrap-around is modelled).
-/

namespace MapsCas

/-- Exceptions the embedded Python code can raise. -/
inductive PyErr where
  | typeError (msg : String)
  | nameError (n : String)
deriving DecidableEq, Repr

/-- Python attribute values that are either None, a string, or the imported
PythonMapsCliIfc module object (CasCall objects store the module in their
status field on a successful open_line). -/
inductive PyV where
  | none
  | str (s : String)
  | module
deriving DecidableEq, Repr

/-- Python truth test for a value that is True, False or None: None is falsy. -/
def pyTruthy : Option Bool → Bool
  | some b => b
  | Option.none => false

/-- MapsGenericApi.py module constant SUCCESS = 0. -/
def SUCCESS : Int := 0

/-- MapsGenericApi.py module constant CONNECT_FAILED = 100. -/
def CONNECT_FAILED : Int := 100

/-- MapsGenericApi.py module constant SENDING_FAILED = 102. -/
def SENDING_FAILED : Int := 102

/-- MapsGenericApi.py module constant CREATE_HANDLE_FAILURE = 108. -/
def CREATE_HANDLE_FAILURE : Int := 108

/-- MapsGenericApi.py module constant SERVER_ERROR_TEST_BED_NOT_STARTED = 300. -/
def SERVER_ERROR_TEST_BED_NOT_STARTED : Int := 300

/-- MapsGenericApi.py module constant
SERVER_ERROR_SCRIPT_IS_ALREADY_STARTED_ON_THE_SAME_SCRIPTID = 305. -/
def SERVER_ERROR_SCRIPT_IS_ALREADY_STARTED_ON_THE_SAME_SCRIPTID : Int := 305

/-- MapsGenericApi.py module constant SERVER_ERROR_SCRIPT_NOT_AVAILABLE = 309. -/
def SERVER_ERROR_SCRIPT_NOT_AVAILABLE : Int := 309

/-- CasCall.cas_event (MapsCasApi.py lines 207 to 222), with the transport
modelled by two oracle inputs: ue is what maps.UserEvent returned and reply is
what maps.WaitForEvent returned.  The first component is the Python return
value: True when UserEvent was nonzero and the reply is "0"; False when
UserEvent returned 0; and None (the implicit Python return at the end of the
function body) when UserEvent was nonzero but the reply differs from "0".
The second component is self.return_code afterwards: the method stores the
WaitForEvent reply there only when UserEvent was nonzero. -/
def cas_event (return_code : String) (ue : Int) (reply : String) :
    Option Bool × String :=
  if ue ≠ 0 then
    (if reply = "0" then some true else Option.none, reply)
  else
    (some false, return_code)

/-- State of one CasCall object, together with an instrumentation log:
return_code is the CasCall.return_code attribute, and sent records, oldest
first, each (event name, variable list) pair handed to maps.UserEvent. -/
structure CasCallState where
  return_code : String
  sent : List (String × List (String × String))
deriving DecidableEq, Repr

/-- cas_event acting on a CasCallState: same result as cas_event, with the
UserEvent that the method issues appended to the log. -/
def cas_event_st (s : CasCallState) (event_name : String)
    (var_list : List (String × String)) (ue : Int) (reply : String) :
    Option Bool × CasCallState :=
  let r := cas_event s.return_code ue reply
  (r.1, { return_code := r.2, sent := s.sent ++ [(event_name, var_list)] })

/-- CasCall.offhook (MapsCasApi.py lines 224 to 232): cas_event "Offhook"
with an empty variable list.  The oracle o is the (UserEvent, WaitForEvent)
pair of transport replies. -/
def offhook (s : CasCallState) (o : Int × String) : Option Bool × CasCallState :=
  cas_event_st s "Offhook" [] o.1 o.2

/-- CasCall.onhook (MapsCasApi.py lines 234 to 242): cas_event "Onhook"
with an empty variable list. -/
def onhook (s : CasCallState) (o : Int × String) : Option Bool × CasCallState :=
  cas_event_st s "Onhook" [] o.1 o.2

/-- CasCall.detect_dial_tone (MapsCasApi.py lines 399 to 415): cas_event
"Detect Dial Tone" with TIMEOUT and DIAL_TONE_DURATION formatted as
"(i)" plus the decimal string of the int. -/
def detect_dial_tone (s : CasCallState) (timeout dial_tone_duration : Int)
    (o : Int × String) : Option Bool × CasCallState :=
  cas_event_st s "Detect Dial Tone"
    [("TIMEOUT", "(i)" ++ toString timeout),
     ("DIAL_TONE_DURATION", "(i)" ++ toString dial_tone_duration)] o.1 o.2

/-- CasCall.dial (MapsCasApi.py lines 995 to 1005): cas_event "Dial" with
DIGITS formatted as "(s)" plus the digit string. -/
def dial (s : CasCallState) (digits : String) (o : Int × String) :
    Option Bool × CasCallState :=
  cas_event_st s "Dial" [("DIGITS", "(s)" ++ digits)] o.1 o.2

/-- CasCall.flash (MapsCasApi.py lines 1007 to 1014): cas_event "Flash"
with an empty variable list. -/
def flash (s : CasCallState) (o : Int × String) : Option Bool × CasCallState :=
  cas_event_st s "Flash" [] o.1 o.2

/-- CasCall.place_call (MapsCasApi.py lines 244 to 256): offhook, then
detect_dial_tone(20000) (whose dial_tone_duration defaults to 20000), then
dial(num_to_dial), each guarded by a Python truth test on the previous
result; returns True only inside the innermost branch and False otherwise.
o1, o2, o3 are the transport oracle pairs consumed by the three steps. -/
def place_call (s : CasCallState) (num_to_dial : String)
    (o1 o2 o3 : Int × String) : Bool × CasCallState :=
  let r1 := offhook s o1
  if pyTruthy r1.1 then
    let r2 := detect_dial_tone r1.2 20000 20000 o2
    if pyTruthy r2.1 then
      let r3 := dial r2.2 num_to_dial o3
      if pyTruthy r3.1 then (true, r3.2) else (false, r3.2)
    else (false, r2.2)
  else (false, r1.2)

/-- Success of one cas_event round trip as a predicate of its transport
oracle pair: UserEvent nonzero and WaitForEvent reply "0". -/
def casOk (o : Int × String) : Prop := o.1 ≠ 0 ∧ o.2 = "0"

instance (o : Int × String) : Decidable (casOk o) := by
  unfold casOk; infer_instance

/-- CallerId (MapsCasApi.py lines 1393 to 1405): four string fields. -/
structure CallerId where
  name : String
  number : String
  date : String
  time : String
deriving DecidableEq, Repr

/-- CasCall.detect_caller_id (MapsCasApi.py lines 1343 to 1360).  ue and
reply are the transport replies consumed by the inner cas_event; cidName,
cidNumber, cidDate and cidTime are what maps.WaitForEvent returns for the
events "CIDName", "CIDNumber", "CIDDate" and "CIDTime" (read in that order,
and only read when cas_event was truthy).  The result is the returned
CallerId, the return_code afterwards, and the list of CID event names the
method waited for, in order. -/
def detect_caller_id (rc : String) (ue : Int) (reply : String)
    (cidName cidNumber cidDate cidTime : String) :
    CallerId × String × List String :=
  let r := cas_event rc ue reply
  if pyTruthy r.1 then
    (⟨cidName, cidNumber, cidDate, cidTime⟩, r.2,
     ["CIDName", "CIDNumber", "CIDDate", "CIDTime"])
  else
    (⟨"", "", "", ""⟩, r.2, [])

/-- CasCall.get_error_message (MapsCasApi.py lines 1016 to 1049): the static
table from self.return_code to a message string, with "Error %s" formatted
from the code in the default branch. -/
def get_error_message (return_code : String) : String :=
  if return_code = "0" then "None"
  else if return_code = "1" then "Timeout"
  else if return_code = "2" then "Line is onhook"
  else if return_code = "3" then "Line is offhook"
  else if return_code = "10" then "Digit: Invalid type"
  else if return_code = "20" then "Region is undefined"
  else if return_code = "30" then "Fax: Out of rates"
  else if return_code = "31" then "Fax: Invalid data rate"
  else if return_code = "32" then "Fax: Frame check error"
  else if return_code = "33" then "Fax: Failure"
  else if return_code = "34" then "Fax: Another session active"
  else if return_code = "35" then "Fax: T1 timeout"
  else if return_code = "36" then "Fax: Cannot open TIFF file"
  else if return_code = "37" then "Fax: TIFF file name missing"
  else "Error " ++ return_code

/-- get_error_message as a method call on a CasCallState: it reads
return_code and leaves the whole state unchanged. -/
def get_error_message_call (s : CasCallState) : String × CasCallState :=
  (get_error_message s.return_code, s)

/-- The return codes get_error_message names explicitly. -/
def knownErrorCodes : List String :=
  ["0", "1", "2", "3", "10", "20", "30", "31", "32", "33", "34", "35", "36", "37"]

/-- Values set_local_variable is called with in the scope of claim C3: a
Python int, str or float.  A float is carried as the string Python str()
would print for it; the payload is never inspected, because the code raises
before using the value. -/
inductive PyValue where
  | int (i : Int)
  | str (s : String)
  | float (f : String)
deriving DecidableEq, Repr

/-- MapsCall.set_local_variable (MapsGenericApi.py lines 166 to 195).  The
int branch builds (variable_name, "(i)" + backtick-repr of the value), and
for a Python 2 int the backtick repr is its decimal string; the str branch
builds (variable_name, "(s)" + value); the float branch evaluates
"(f)" + variable_value, a str plus float concatenation, which raises
TypeError in Python 2 before any event is sent.  ue and status are the
transport replies of maps.UserEvent and maps.WaitForEvent.  On the
non-raising paths the result is the returned status code together with the
argument list handed to UserEvent(handle, "SetVariable", arg). -/
def set_local_variable (variable_name : String) (variable_value : PyValue)
    (ue : Int) (status : String) :
    Except PyErr (Int × List (String × String)) := do
  let function_arg ←
    match variable_value with
    | PyValue.int i => Except.ok (variable_name, "(i)" ++ toString i)
    | PyValue.str s => Except.ok (variable_name, "(s)" ++ s)
    | PyValue.float _ =>
        Except.error (PyErr.typeError
          "cannot concatenate str and float objects")
  let arg := [function_arg]
  let result :=
    if ue ≠ 0 then
      if status = "" then SERVER_ERROR_TEST_BED_NOT_STARTED
      else if status ≠ "Applied" then SERVER_ERROR_SCRIPT_NOT_AVAILABLE
      else SUCCESS
    else SENDING_FAILED
  return (result, arg)

/-- Attribute state of a MapsClient object (MapsGenericApi.py lines 5 to 27
plus the connection_id attribute that connect creates). -/
structure MapsClientState where
  server_ip : String
  server_port : Int
  protocol : String
  status : String
  testbed : String
  connection_id : Int
deriving DecidableEq, Repr

/-- MapsClient.connect (MapsGenericApi.py lines 36 to 46).  connectResult is
what maps.Connect returned; it is stored in self.connection_id
unconditionally, and when it is nonzero the status becomes "CONNECTED" and
the result is SUCCESS, otherwise the result stays CONNECT_FAILED. -/
def connect (s : MapsClientState) (connectResult : Int) :
    MapsClientState × Int :=
  let s1 := { s with connection_id := connectResult }
  if connectResult ≠ 0 then ({ s1 with status := "CONNECTED" }, SUCCESS)
  else (s1, CONNECT_FAILED)

/-- One CasCall object as open_line builds it, tracked by identity: oid is
the allocation number (fresh per constructed object), the other fields are
the constructor arguments CasCall(handle, status, level, call_type).
Python compares these objects with default identity equality, and oids are
unique by construction, so structural equality on this record is object
identity. -/
structure CasCallObj where
  oid : Nat
  handle : Int
  status : PyV
  level : PyV
  type : PyV
deriving DecidableEq, Repr

/-- Transport replies consumed by one open_line call: what maps.StartScript
returned and what the two maps.WaitForEvent calls for "ScriptStatus" and
"TSStatus" returned. -/
structure OpenOracle where
  handle : Int
  scriptStatus : String
  tsStatus : String
deriving DecidableEq, Repr

/-- Transport replies consumed by one close_line call: what maps.StopScript
returned and what maps.WaitForEvent for "StopScriptStatus" returned. -/
structure CloseOracle where
  stopResult : Int
  stopStatus : String
deriving DecidableEq, Repr

/-- Attribute state of a CasClient object that the line bookkeeping touches:
active_lines is the dict from line number to the tracked CasCall object,
next_oid the allocation counter for object identities. -/
structure CasClientState where
  active_lines : Nat → Option CasCallObj
  next_oid : Nat

/-- A CasClient as CasClient.__init__ leaves it: active_lines = {}. -/
def initCasClient : CasClientState := ⟨fun _ => Option.none, 0⟩

/-- CasClient.open_line (MapsCasApi.py lines 32 to 60).  When StartScript
returns handle 0 the function falls off the end and returns None.  When the
handle is nonzero but ScriptStatus is not "Running" it returns a fresh
CasCall(CREATE_HANDLE_FAILURE, None, None, None); when ScriptStatus is
"Running" but TSStatus is not "TS is unique" it returns a fresh
CasCall(SERVER_ERROR_SCRIPT_IS_ALREADY_STARTED_ON_THE_SAME_SCRIPTID, None,
None, None); only on full success is the fresh call stored in
active_lines[line] (Python dict assignment, replacing any previous entry)
and returned.  The successful constructor call is CasCall(handle, maps,
"LOW", "CAS"), so the status field holds the maps module object. -/
def open_line (s : CasClientState) (line : Nat) (o : OpenOracle) :
    Option CasCallObj × CasClientState :=
  if o.handle ≠ 0 then
    if o.scriptStatus = "Running" then
      if o.tsStatus = "TS is unique" then
        let tmp_call : CasCallObj :=
          ⟨s.next_oid, o.handle, PyV.module, PyV.str "LOW", PyV.str "CAS"⟩
        (some tmp_call,
         ⟨fun l => if l = line then some tmp_call else s.active_lines l,
          s.next_oid + 1⟩)
      else
        (some ⟨s.next_oid, SERVER_ERROR_SCRIPT_IS_ALREADY_STARTED_ON_THE_SAME_SCRIPTID,
               PyV.none, PyV.none, PyV.none⟩,
         { s with next_oid := s.next_oid + 1 })
    else
      (some ⟨s.next_oid, CREATE_HANDLE_FAILURE, PyV.none, PyV.none, PyV.none⟩,
       { s with next_oid := s.next_oid + 1 })
  else (Option.none, s)

/-- CasClient.close_line (MapsCasApi.py lines 62 to 84): deletes every
active_lines entry whose value is the given call object, then derives the
result code from the StopScript round trip. -/
def close_line (s : CasClientState) (call : CasCallObj) (o : CloseOracle) :
    Int × CasClientState :=
  let lines := fun l =>
    if s.active_lines l = some call then Option.none else s.active_lines l
  let result :=
    if o.stopResult ≠ 0 then
      if o.stopStatus = "" then SERVER_ERROR_TEST_BED_NOT_STARTED
      else if o.stopStatus ≠ "Script Stopped" then SERVER_ERROR_SCRIPT_NOT_AVAILABLE
      else SUCCESS
    else SENDING_FAILED
  (result, { s with active_lines := lines })

/-- CasClient.get_cas_call (MapsCasApi.py lines 86 to 97): active_lines[line]
when the line is a key of the dict, None otherwise. -/
def get_cas_call (s : CasClientState) (line : Nat) : Option CasCallObj :=
  s.active_lines line

/-- Full success of one open_line transport round trip. -/
def openSucceeds (o : OpenOracle) : Prop :=
  o.handle ≠ 0 ∧ o.scriptStatus = "Running" ∧ o.tsStatus = "TS is unique"

instance (o : OpenOracle) : Decidable (openSucceeds o) := by
  unfold openSucceeds; infer_instance

/-- One client-level line operation, with the transport replies it consumes. -/
inductive CasEvent where
  | openLine (line : Nat) (o : OpenOracle)
  | closeLine (call : CasCallObj) (o : CloseOracle)
deriving DecidableEq, Repr

/-- Effect of one line operation on the client state. -/
def casStep (s : CasClientState) : CasEvent → CasClientState
  | CasEvent.openLine line o => (open_line s line o).2
  | CasEvent.closeLine call o => (close_line s call o).2

/-- Effect of a whole sequence of line operations, run left to right. -/
def casRun (s : CasClientState) (tr : List CasEvent) : CasClientState :=
  tr.foldl casStep s

/-- CasClient.get_card_from_line (MapsCasApi.py lines 99 to 107):
(line - 1) / 24 + 1 with Python 2 floor division. -/
def get_card_from_line (line : Int) : Int := Int.fdiv (line - 1) 24 + 1

/-- CasClient.get_timeslot_from_line (MapsCasApi.py lines 109 to 116):
(line - 1) % 24 with the Python modulo, nonnegative for the positive
divisor 24. -/
def get_timeslot_from_line (line : Int) : Int := (line - 1) % 24

/-- Names defined at the top level of module MapsGenericApi.py: the two
imports, the two classes, and the constants of lines 250 to 296.  Any other
bare name referenced from a method body of that module raises NameError. -/
def mapsGenericGlobalNames : List String :=
  ["maps", "time", "MapsClient", "MapsCall", "DEFAULT_TIME_OUT", "SUCCESS",
   "CONNECT_FAILED", "DISCONNECT_FAILED", "SENDING_FAILED",
   "START_TESTBED_FAILURE", "STOP_TESTBED_FAILURE", "PROFILE_LOADING_FAILURE",
   "CALL_STATUS_FAILURE", "TRANSPORT_FAILURE", "CREATE_HANDLE_FAILURE",
   "CALL_NOT_INITIATED", "ANSWER_CALL_FAILURE", "REJECT_CALL_FAILURE",
   "TERMINATE_CALL_FAILURE", "BINDING_INCOMING_CALL_FAILURE",
   "GET_NEW_SCRIPTID_FAILURE", "UNKNOWN_DATATYPE", "UNKNOWN_CALLTYPE",
   "TRAFFICSTATUS_FAILURE", "GETTING_MESSAGE_INFO_FAILED",
   "GETTING_MESSAGE_COUNT_FAILED", "SEND_MESSAGE_FAILED",
   "RECEIVE_MESSAGE_FAILED", "STOP_SCRIPT_FAILURE", "UNKNOWN_DIRECTION",
   "UNKNOWN_RESPONSE_CODE", "UNKNOWN_VARIABLE", "SUSPEND_CALL_FAILURE",
   "RESUME_CALL_FAILURE", "SERVER_ERROR_TEST_BED_NOT_STARTED",
   "SERVER_ERROR_MAPS_INIT_SCRIPT_NOT_FOUND",
   "SERVER_ERROR_PARSING_ERROR_IN_THE_MAPS_INIT_SCRIPT",
   "SERVER_ERROR_MAPS_SHUT_DOWN_SCRIPT_NOT_FOUND",
   "SERVER_ERROR_PARSING_ERROR_IN_THE_MAPS_SHUT_DOWN_SCRIPT",
   "SERVER_ERROR_SCRIPT_IS_ALREADY_STARTED_ON_THE_SAME_SCRIPTID",
   "SERVER_ERROR_SCRIPT_NOT_FOUND", "SERVER_ERROR_PROFILE_NOT_LOADED",
   "SERVER_ERROR_PARSING_ERROR_IN_THE_SCRIPT",
   "SERVER_ERROR_SCRIPT_NOT_AVAILABLE", "SERVER_ERROR_PARAMETER_LIST_EMPTY",
   "INT", "STRING", "FLOAT"]

/-- Resolution of a bare (non-local) name in a MapsGenericApi.py method body:
NameError unless the module defines it at top level. -/
def resolveName (n : String) : Except PyErr Unit :=
  if n ∈ mapsGenericGlobalNames then Except.ok () else Except.error (PyErr.nameError n)

/-- The while loop of MapsCall.wait_for_call_connect (MapsGenericApi.py lines
233 to 238), run on explicit fuel.  Each iteration first resolves the bare
names get_call_status and handle (in Python evaluation order), and only then
would call get_call_status(handle), whose reply the oracle g supplies.  The
loop either sets time_out to 0 on "Connected" or decrements it, so time_out
strictly decreases and fuel = time_out.toNat covers every iteration the
Python loop could perform; the fuel-exhausted branch is therefore never the
one that ends a run started with that fuel.  Returns (time_out, response)
at loop exit. -/
def wait_for_call_connect_loop (g : Nat → String) :
    Nat → Int → String → Except PyErr (Int × String)
  | 0, time_out, response => Except.ok (time_out, response)
  | fuel + 1, time_out, response =>
    if time_out > 0 then do
      let _ ← resolveName "get_call_status"
      let _ ← resolveName "handle"
      let response := g fuel
      if response = "Connected" then
        wait_for_call_connect_loop g fuel 0 response
      else
        wait_for_call_connect_loop g fuel (time_out - 1) response
    else Except.ok (time_out, response)

/-- MapsCall.wait_for_call_connect (MapsGenericApi.py lines 223 to 243).
time_out /= 1000 is Python 2 floor division.  After the loop, a response
other than "Connected" makes the code read the bare name
WAIT_FOR_CALL_CONNECT_FAILURE, which the module does not define.  The
returned value on a non-raising path would be the final response string. -/
def wait_for_call_connect (g : Nat → String) (time_out : Int) :
    Except PyErr String := do
  let t := Int.fdiv time_out 1000
  let r ← wait_for_call_connect_loop g t.toNat t ""
  if r.2 ≠ "Connected" then
    let _ ← resolveName "WAIT_FOR_CALL_CONNECT_FAILURE"
    return r.2
  else
    return r.2

/-!  Theorems for the frozen claims. -/

/-- C1 counterexample.  The claim says that for the cas_event methods the
result is False (a boolean, never any other value) whenever the round trip
does not succeed, including when UserEvent succeeds but the reply differs
from "0".  At UserEvent result 1 and reply "1" the method instead falls off
the end of its body and returns None. -/
theorem cas_event_counterexample :
    (cas_event "" 1 "1").1 = Option.none ∧ (cas_event "" 1 "1").1 ≠ some false := by
  decide

/-- C1 amended.  cas_event returns True exactly when the UserEvent call
reports success (nonzero) and the WaitForEvent reply is "0"; it returns
False exactly when UserEvent returns 0; and when UserEvent succeeds but the
reply differs from "0" it returns None, not False.  The dial, offhook,
onhook and flash methods return exactly the cas_event result for their
transport oracle. -/
theorem cas_event_status_mapping (rc : String) (ue : Int) (reply : String) :
    ((cas_event rc ue reply).1 = some true ↔ ue ≠ 0 ∧ reply = "0") ∧
    ((cas_event rc ue reply).1 = some false ↔ ue = 0) ∧
    ((cas_event rc ue reply).1 = Option.none ↔ ue ≠ 0 ∧ reply ≠ "0") ∧
    (∀ s digits o, (dial s digits o).1 = (cas_event s.return_code o.1 o.2).1) ∧
    (∀ s o, (offhook s o).1 = (cas_event s.return_code o.1 o.2).1) ∧
    (∀ s o, (onhook s o).1 = (cas_event s.return_code o.1 o.2).1) ∧
    (∀ s o, (flash s o).1 = (cas_event s.return_code o.1 o.2).1) := by
  refine ⟨?_, ?_, ?_, fun s digits o => rfl, fun s o => rfl, fun s o => rfl,
    fun s o => rfl⟩ <;>
  · unfold cas_event
    by_cases hue : ue = 0 <;> by_cases hr : reply = "0" <;> simp [hue, hr]

/-- C3: set_local_variable called with a float evaluates "(f)" plus the
float, a str plus float concatenation, and raises TypeError; with an int or
a str it completes and passes the tagged pair to UserEvent. -/
theorem set_local_variable_float_raises :
    (∀ nm f ue st, set_local_variable nm (PyValue.float f) ue st =
      Except.error (PyErr.typeError "cannot concatenate str and float objects")) ∧
    set_local_variable "Var1" (PyValue.int 7) 1 "Applied" =
      Except.ok (SUCCESS, [("Var1", "(i)7")]) ∧
    set_local_variable "Var1" (PyValue.str "abc") 1 "Applied" =
      Except.ok (SUCCESS, [("Var1", "(s)abc")]) := by
  refine ⟨fun nm f ue st => rfl, by rfl, by rfl⟩

/-- C5: get_error_message is the static table from return_code to message:
the fourteen listed codes map to their strings, every other code maps to
"Error " followed by the code, and the call reads return_code without
changing any state, so two successive calls agree. -/
theorem get_error_message_table :
    (get_error_message "0" = "None" ∧
     get_error_message "1" = "Timeout" ∧
     get_error_message "2" = "Line is onhook" ∧
     get_error_message "3" = "Line is offhook" ∧
     get_error_message "10" = "Digit: Invalid type" ∧
     get_error_message "20" = "Region is undefined" ∧
     get_error_message "30" = "Fax: Out of rates" ∧
     get_error_message "31" = "Fax: Invalid data rate" ∧
     get_error_message "32" = "Fax: Frame check error" ∧
     get_error_message "33" = "Fax: Failure" ∧
     get_error_message "34" = "Fax: Another session active" ∧
     get_error_message "35" = "Fax: T1 timeout" ∧
     get_error_message "36" = "Fax: Cannot open TIFF file" ∧
     get_error_message "37" = "Fax: TIFF file name missing") ∧
    (∀ c, c ∉ knownErrorCodes → get_error_message c = "Error " ++ c) ∧
    (∀ s, (get_error_message_call s).2 = s) ∧
    (∀ s, (get_error_message_call ((get_error_message_call s).2)).1 =
          (get_error_message_call s).1) := by
  refine ⟨by decide, ?_, fun s => rfl, fun s => rfl⟩
  intro c hc
  simp only [knownErrorCodes, List.mem_cons, List.not_mem_nil, or_false,
    not_or] at hc
  obtain ⟨h0, h1, h2, h3, h10, h20, h30, h31, h32, h33, h34, h35, h36, h37⟩ := hc
  simp [get_error_message, h0, h1, h2, h3, h10, h20, h30, h31, h32, h33, h34,
    h35, h36, h37]

/-- C6: connect returns SUCCESS (0) exactly when maps.Connect returned a
nonzero id; the id is stored in connection_id (on failure that stores 0,
the value Connect returned); on success the status becomes "CONNECTED"; on
failure the result is CONNECT_FAILED (100) and the status and all other
fields are unchanged. -/
theorem connect_pass_through (s : MapsClientState) (r : Int) :
    ((connect s r).2 = SUCCESS ↔ r ≠ 0) ∧
    (connect s r).1.connection_id = r ∧
    (r ≠ 0 → (connect s r).1.status = "CONNECTED") ∧
    (r = 0 → (connect s r).2 = CONNECT_FAILED ∧
             (connect s r).1.status = s.status) ∧
    (connect s r).1.server_ip = s.server_ip ∧
    (connect s r).1.server_port = s.server_port ∧
    (connect s r).1.protocol = s.protocol ∧
    (connect s r).1.testbed = s.testbed := by
  by_cases hr : r = 0 <;>
    simp [connect, hr, SUCCESS, CONNECT_FAILED]

/-- C4: detect_caller_id returns a CallerId whose name, number, date and
time fields are the WaitForEvent replies for "CIDName", "CIDNumber",
"CIDDate" and "CIDTime", waited for in that order, when the "Detect Caller
ID" round trip succeeds with reply "0"; in every other case (UserEvent
returning 0, or a reply other than "0") it returns the CallerId whose four
fields are all the empty string. -/
theorem detect_caller_id_fields (rc : String) (ue : Int) (reply : String)
    (n num d t : String) :
    (ue ≠ 0 ∧ reply = "0" →
      (detect_caller_id rc ue reply n num d t).1 = ⟨n, num, d, t⟩ ∧
      (detect_caller_id rc ue reply n num d t).2.2 =
        ["CIDName", "CIDNumber", "CIDDate", "CIDTime"]) ∧
    (ue = 0 ∨ reply ≠ "0" →
      (detect_caller_id rc ue reply n num d t).1 = ⟨"", "", "", ""⟩) := by
  unfold detect_caller_id cas_event
  by_cases hue : ue = 0 <;> by_cases hr : reply = "0" <;>
    simp [hue, hr, pyTruthy]

/-- Helper: one instrumented cas_event call is truthy exactly when its
transport oracle pair satisfies casOk, and it appends exactly its own
(event name, variable list) pair to the log. -/
theorem cas_event_st_spec (s : CasCallState) (nm : String)
    (v : List (String × String)) (o : Int × String) :
    (pyTruthy (cas_event_st s nm v o.1 o.2).1 = true ↔ casOk o) ∧
    (cas_event_st s nm v o.1 o.2).2.sent = s.sent ++ [(nm, v)] := by
  unfold cas_event_st cas_event casOk
  by_cases h1 : o.1 = 0 <;> by_cases h2 : o.2 = "0" <;>
    simp [h1, h2, pyTruthy]

/-- C7: place_call returns True exactly when the offhook round trip, the
detect_dial_tone round trip with timeout 20000, and the dial round trip all
succeed; it returns False otherwise, and the UserEvents it sends are exactly
the chain up to and including the first failing step: only "Offhook" when
offhook fails, "Offhook" then "Detect Dial Tone" when detect_dial_tone
fails, and all three (with dial last) once the first two succeed. -/
theorem place_call_sequential (s : CasCallState) (num : String)
    (o1 o2 o3 : Int × String) :
    ((place_call s num o1 o2 o3).1 = true ↔ casOk o1 ∧ casOk o2 ∧ casOk o3) ∧
    (¬ casOk o1 →
      (place_call s num o1 o2 o3).2.sent = s.sent ++ [("Offhook", [])]) ∧
    (casOk o1 → ¬ casOk o2 →
      (place_call s num o1 o2 o3).2.sent = s.sent ++
        [("Offhook", []),
         ("Detect Dial Tone",
          [("TIMEOUT", "(i)20000"), ("DIAL_TONE_DURATION", "(i)20000")])]) ∧
    (casOk o1 → casOk o2 →
      (place_call s num o1 o2 o3).2.sent = s.sent ++
        [("Offhook", []),
         ("Detect Dial Tone",
          [("TIMEOUT", "(i)20000"), ("DIAL_TONE_DURATION", "(i)20000")]),
         ("Dial", [("DIGITS", "(s)" ++ num)])]) := by
  have h20000 : "(i)" ++ toString (20000 : Int) = "(i)20000" := rfl
  unfold place_call offhook detect_dial_tone dial
  by_cases h1 : casOk o1 <;> by_cases h2 : casOk o2 <;> by_cases h3 : casOk o3 <;>
    simp [h1, h2, h3, (cas_event_st_spec _ _ _ _).1, (cas_event_st_spec _ _ _ _).2,
      h20000, List.append_assoc]

/-- C8: open_line returns None when StartScript returns handle 0; a fresh
CasCall with handle CREATE_HANDLE_FAILURE = 108 and None status, level and
type fields when the script starts but ScriptStatus is not "Running"; a
fresh CasCall with handle
SERVER_ERROR_SCRIPT_IS_ALREADY_STARTED_ON_THE_SAME_SCRIPTID = 305 and None
fields when ScriptStatus is "Running" but TSStatus is not "TS is unique";
and in every failure case active_lines gains no entry. -/
theorem open_line_failure_modes (s : CasClientState) (line : Nat)
    (o : OpenOracle) :
    (o.handle = 0 → open_line s line o = (Option.none, s)) ∧
    (o.handle ≠ 0 → o.scriptStatus ≠ "Running" →
      (open_line s line o).1 =
        some ⟨s.next_oid, CREATE_HANDLE_FAILURE, PyV.none, PyV.none, PyV.none⟩ ∧
      CREATE_HANDLE_FAILURE = 108) ∧
    (o.handle ≠ 0 → o.scriptStatus = "Running" → o.tsStatus ≠ "TS is unique" →
      (open_line s line o).1 =
        some ⟨s.next_oid,
              SERVER_ERROR_SCRIPT_IS_ALREADY_STARTED_ON_THE_SAME_SCRIPTID,
              PyV.none, PyV.none, PyV.none⟩ ∧
      SERVER_ERROR_SCRIPT_IS_ALREADY_STARTED_ON_THE_SAME_SCRIPTID = 305) ∧
    (¬ openSucceeds o →
      ∀ l, get_cas_call (open_line s line o).2 l = get_cas_call s l) := by
  refine ⟨?_, ?_, ?_, ?_⟩
  · intro h0
    simp [open_line, h0]
  · intro h0 hrun
    simp [open_line, h0, hrun, CREATE_HANDLE_FAILURE]
  · intro h0 hrun hts
    simp [open_line, h0, hrun, hts,
      SERVER_ERROR_SCRIPT_IS_ALREADY_STARTED_ON_THE_SAME_SCRIPTID]
  · intro hfail l
    unfold openSucceeds at hfail
    push_neg at hfail
    by_cases h0 : o.handle = 0
    · simp [open_line, get_cas_call, h0]
    · by_cases hrun : o.scriptStatus = "Running"
      · have hts := hfail h0 hrun
        simp [open_line, get_cas_call, h0, hrun, hts]
      · simp [open_line, get_cas_call, h0, hrun]

/-- Helper: a run of line operations none of which successfully opens a
given line leaves that line without a tracked call. -/
theorem casRun_never_opened (line : Nat) :
    ∀ (tr : List CasEvent) (s : CasClientState),
      get_cas_call s line = Option.none →
      (∀ o, CasEvent.openLine line o ∈ tr → ¬ openSucceeds o) →
      get_cas_call (casRun s tr) line = Option.none := by
  intro tr
  induction tr with
  | nil => intro s h _; exact h
  | cons e rest ih =>
    intro s h hne
    simp only [get_cas_call] at h
    have hrest : ∀ o, CasEvent.openLine line o ∈ rest → ¬ openSucceeds o :=
      fun o ho => hne o (List.mem_cons_of_mem _ ho)
    have hstep : get_cas_call (casStep s e) line = Option.none := by
      cases e with
      | openLine l2 o =>
        by_cases hs : openSucceeds o
        · have hne2 : line ≠ l2 := by
            intro he
            exact hne o (by rw [he]; exact List.mem_cons_self _ _) hs
          obtain ⟨h1, h2, h3⟩ := hs
          simp [casStep, open_line, get_cas_call, h1, h2, h3, hne2, h]
        · unfold openSucceeds at hs
          push_neg at hs
          by_cases h0 : o.handle = 0
          · simpa [casStep, open_line, get_cas_call, h0] using h
          · by_cases hrun : o.scriptStatus = "Running"
            · have hts := hs h0 hrun
              simpa [casStep, open_line, get_cas_call, h0, hrun, hts] using h
            · simpa [casStep, open_line, get_cas_call, h0, hrun] using h
      | closeLine c o =>
        simp [casStep, close_line, get_cas_call, h]
    exact ih _ hstep hrest

/-- C2: after a successful open_line(line), active_lines maps line to the
very call object open_line returned, so get_cas_call(line) yields it;
close_line(call) removes every entry whose value is that call, so afterwards
get_cas_call yields that call for no line (and a line that pointed at the
closed call now yields None); and a line never successfully opened over a
whole run from a fresh client yields None. -/
theorem active_lines_tracking (s : CasClientState) (line : Nat)
    (o : OpenOracle) (call : CasCallObj) (oc : CloseOracle)
    (tr : List CasEvent) :
    (openSucceeds o →
      ∃ c, (open_line s line o).1 = some c ∧
           get_cas_call (open_line s line o).2 line = some c) ∧
    (∀ l, get_cas_call (close_line s call oc).2 l ≠ some call) ∧
    (∀ l, get_cas_call s l = some call →
          get_cas_call (close_line s call oc).2 l = Option.none) ∧
    ((∀ o2, CasEvent.openLine line o2 ∈ tr → ¬ openSucceeds o2) →
      get_cas_call (casRun initCasClient tr) line = Option.none) := by
  refine ⟨?_, ?_, ?_, ?_⟩
  · rintro ⟨h1, h2, h3⟩
    refine ⟨⟨s.next_oid, o.handle, PyV.module, PyV.str "LOW", PyV.str "CAS"⟩,
      ?_, ?_⟩ <;> simp [open_line, get_cas_call, h1, h2, h3]
  · intro l
    by_cases hl : s.active_lines l = some call <;>
      simp [close_line, get_cas_call, hl]
  · intro l hl
    simp only [get_cas_call] at hl
    simp [close_line, get_cas_call, hl]
  · intro hne
    exact casRun_never_opened line tr initCasClient rfl hne

/-- C9: wait_for_call_connect never returns normally.  With a divided
timeout of at least one (time_out at least 1000) the first loop iteration
reads the unbound module name get_call_status and raises NameError; with
time_out below 1000 (zero or negative quotient included) the loop is
skipped, the response stays "", and the error branch reads the unbound
module name WAIT_FOR_CALL_CONNECT_FAILURE and raises NameError; so no
integer timeout and no oracle for the hypothetical call-status function
makes the method return a value. -/
theorem wait_for_call_connect_raises (g : Nat → String) (time_out : Int) :
    (1000 ≤ time_out →
      wait_for_call_connect g time_out =
        Except.error (PyErr.nameError "get_call_status")) ∧
    (time_out < 1000 →
      wait_for_call_connect g time_out =
        Except.error (PyErr.nameError "WAIT_FOR_CALL_CONNECT_FAILURE")) ∧
    (∀ r, wait_for_call_connect g time_out ≠ Except.ok r) := by
  have hg : "get_call_status" ∉ mapsGenericGlobalNames := by decide
  have hw : "WAIT_FOR_CALL_CONNECT_FAILURE" ∉ mapsGenericGlobalNames := by decide
  have hediv : Int.fdiv time_out 1000 = time_out / 1000 :=
    Int.fdiv_eq_ediv time_out (by norm_num)
  have hcase1 : 1000 ≤ time_out →
      wait_for_call_connect g time_out =
        Except.error (PyErr.nameError "get_call_status") := by
    intro h
    have ht : 0 < Int.fdiv time_out 1000 := by rw [hediv]; omega
    obtain ⟨n, hn⟩ : ∃ n, (Int.fdiv time_out 1000).toNat = n + 1 :=
      ⟨(Int.fdiv time_out 1000).toNat - 1, by omega⟩
    unfold wait_for_call_connect
    simp only [hn]
    unfold wait_for_call_connect_loop
    simp only [ht, if_pos, gt_iff_lt]
    rfl
  have hcase2 : time_out < 1000 →
      wait_for_call_connect g time_out =
        Except.error (PyErr.nameError "WAIT_FOR_CALL_CONNECT_FAILURE") := by
    intro h
    have ht : Int.fdiv time_out 1000 ≤ 0 := by rw [hediv]; omega
    have hn : (Int.fdiv time_out 1000).toNat = 0 := by omega
    unfold wait_for_call_connect
    simp only [hn]
    unfold wait_for_call_connect_loop
    rfl
  refine ⟨hcase1, hcase2, ?_⟩
  intro r
  rcases le_or_lt 1000 time_out with h | h
  · rw [hcase1 h]; simp
  · rw [hcase2 h]; simp

/-- C10: for every integer line at least 1, the timeslot lies in 0..23 and
(card - 1) * 24 + timeslot + 1 recovers the line, and the (card, timeslot)
pair is the unique such decomposition. -/
theorem line_decomposition (line : Int) (h : 1 ≤ line) :
    0 ≤ get_timeslot_from_line line ∧
    get_timeslot_from_line line ≤ 23 ∧
    (get_card_from_line line - 1) * 24 + get_timeslot_from_line line + 1 = line ∧
    (∀ c t, 0 ≤ t → t ≤ 23 → (c - 1) * 24 + t + 1 = line →
      c = get_card_from_line line ∧ t = get_timeslot_from_line line) := by
  unfold get_card_from_line get_timeslot_from_line
  rw [Int.fdiv_eq_ediv _ (by norm_num : (0 : Int) ≤ 24)]
  refine ⟨by omega, by omega, by omega, ?_⟩
  intro c t h1 h2 h3
  omega

/-- C1 witness: the three cases of the amended mapping at concrete
transport replies. -/
theorem cas_event_status_mapping_witness :
    (cas_event "" 1 "0").1 = some true ∧
    (cas_event "" 0 "5").1 = some false ∧
    (cas_event "" 2 "7").1 = Option.none :=
  ⟨(cas_event_status_mapping "" 1 "0").1.mpr (by decide),
   (cas_event_status_mapping "" 0 "5").2.1.mpr rfl,
   (cas_event_status_mapping "" 2 "7").2.2.1.mpr (by decide)⟩

/-- C2 witness: a concrete successful open on line 7, a concrete close, and
a concrete run whose only open of line 7 fails. -/
theorem active_lines_tracking_witness :
    (∃ c, (open_line initCasClient 7 ⟨5, "Running", "TS is unique"⟩).1 = some c ∧
      get_cas_call (open_line initCasClient 7 ⟨5, "Running", "TS is unique"⟩).2 7 =
        some c) ∧
    get_cas_call
      (close_line initCasClient ⟨0, 5, PyV.module, PyV.str "LOW", PyV.str "CAS"⟩
        ⟨1, "Script Stopped"⟩).2 7 ≠
      some ⟨0, 5, PyV.module, PyV.str "LOW", PyV.str "CAS"⟩ ∧
    get_cas_call (casRun initCasClient [CasEvent.openLine 7 ⟨0, "x", "y"⟩]) 7 =
      Option.none := by
  have h := active_lines_tracking initCasClient 7 ⟨5, "Running", "TS is unique"⟩
    ⟨0, 5, PyV.module, PyV.str "LOW", PyV.str "CAS"⟩ ⟨1, "Script Stopped"⟩
    [CasEvent.openLine 7 ⟨0, "x", "y"⟩]
  refine ⟨h.1 ⟨by decide, rfl, rfl⟩, h.2.1 7, h.2.2.2 ?_⟩
  intro o2 ho2
  simp only [List.mem_singleton, CasEvent.openLine.injEq, true_and] at ho2
  rw [ho2]
  decide

/-- C4 witness: concrete CID replies on a successful round trip and the
all-empty CallerId on a failed one. -/
theorem detect_caller_id_fields_witness :
    (detect_caller_id "" 1 "0" "Alice" "5551234" "0102" "1200").1 =
      ⟨"Alice", "5551234", "0102", "1200"⟩ ∧
    (detect_caller_id "" 1 "0" "Alice" "5551234" "0102" "1200").2.2 =
      ["CIDName", "CIDNumber", "CIDDate", "CIDTime"] ∧
    (detect_caller_id "" 1 "9" "Alice" "5551234" "0102" "1200").1 =
      ⟨"", "", "", ""⟩ :=
  ⟨((detect_caller_id_fields "" 1 "0" "Alice" "5551234" "0102" "1200").1
      (by decide)).1,
   ((detect_caller_id_fields "" 1 "0" "Alice" "5551234" "0102" "1200").1
      (by decide)).2,
   (detect_caller_id_fields "" 1 "9" "Alice" "5551234" "0102" "1200").2
     (Or.inr (by decide))⟩

/-- C5 witness: the default branch at the concrete unlisted code "99". -/
theorem get_error_message_table_witness :
    get_error_message "99" = "Error 99" :=
  get_error_message_table.2.1 "99" (by decide)

/-- C6 witness: connect on a concrete client state at a nonzero and at a
zero Connect reply. -/
theorem connect_pass_through_witness :
    (connect ⟨"10.0.0.1", 10024, "NONE", "", "tb.xml", 0⟩ 77).2 = SUCCESS ∧
    (connect ⟨"10.0.0.1", 10024, "NONE", "", "tb.xml", 0⟩ 77).1.status =
      "CONNECTED" ∧
    (connect ⟨"10.0.0.1", 10024, "NONE", "", "tb.xml", 0⟩ 0).2 = CONNECT_FAILED ∧
    (connect ⟨"10.0.0.1", 10024, "NONE", "", "tb.xml", 0⟩ 0).1.status = "" :=
  ⟨(connect_pass_through ⟨"10.0.0.1", 10024, "NONE", "", "tb.xml", 0⟩ 77).1.mpr
     (by decide),
   (connect_pass_through ⟨"10.0.0.1", 10024, "NONE", "", "tb.xml", 0⟩ 77).2.2.1
     (by decide),
   ((connect_pass_through ⟨"10.0.0.1", 10024, "NONE", "", "tb.xml", 0⟩ 0).2.2.2.1
     rfl).1,
   ((connect_pass_through ⟨"10.0.0.1", 10024, "NONE", "", "tb.xml", 0⟩ 0).2.2.2.1
     rfl).2⟩

/-- C7 witness: a fully successful chain returns True, and a failed offhook
leaves only the Offhook event sent. -/
theorem place_call_sequential_witness :
    (place_call ⟨"", []⟩ "1234" (1, "0") (1, "0") (1, "0")).1 = true ∧
    (place_call ⟨"", []⟩ "1234" (0, "0") (1, "0") (1, "0")).2.sent =
      [("Offhook", [])] :=
  ⟨(place_call_sequential ⟨"", []⟩ "1234" (1, "0") (1, "0") (1, "0")).1.mpr
     ⟨⟨by decide, rfl⟩, ⟨by decide, rfl⟩, ⟨by decide, rfl⟩⟩,
   (place_call_sequential ⟨"", []⟩ "1234" (0, "0") (1, "0") (1, "0")).2.1
     (by decide)⟩

/-- C8 witness: the three failure shapes of open_line at concrete oracles,
and the unchanged line map. -/
theorem open_line_failure_modes_witness :
    open_line initCasClient 3 ⟨0, "", ""⟩ = (Option.none, initCasClient) ∧
    (open_line initCasClient 3 ⟨5, "Stopped", ""⟩).1 =
      some ⟨0, CREATE_HANDLE_FAILURE, PyV.none, PyV.none, PyV.none⟩ ∧
    (open_line initCasClient 3 ⟨5, "Running", "TS is busy"⟩).1 =
      some ⟨0, SERVER_ERROR_SCRIPT_IS_ALREADY_STARTED_ON_THE_SAME_SCRIPTID,
            PyV.none, PyV.none, PyV.none⟩ ∧
    get_cas_call (open_line initCasClient 3 ⟨5, "Stopped", ""⟩).2 3 =
      get_cas_call initCasClient 3 :=
  ⟨(open_line_failure_modes initCasClient 3 ⟨0, "", ""⟩).1 rfl,
   ((open_line_failure_modes initCasClient 3 ⟨5, "Stopped", ""⟩).2.1
     (by decide) (by decide)).1,
   ((open_line_failure_modes initCasClient 3 ⟨5, "Running", "TS is busy"⟩).2.2.1
     (by decide) rfl (by decide)).1,
   (open_line_failure_modes initCasClient 3 ⟨5, "Stopped", ""⟩).2.2.2
     (by decide) 3⟩

/-- C9 witness: both NameError outcomes at concrete timeouts. -/
theorem wait_for_call_connect_raises_witness :
    wait_for_call_connect (fun _ => "") 5000 =
      Except.error (PyErr.nameError "get_call_status") ∧
    wait_for_call_connect (fun _ => "") 500 =
      Except.error (PyErr.nameError "WAIT_FOR_CALL_CONNECT_FAILURE") :=
  ⟨(wait_for_call_connect_raises (fun _ => "") 5000).1 (by norm_num),
   (wait_for_call_connect_raises (fun _ => "") 500).2.1 (by norm_num)⟩

/-- C10 witness: the decomposition at line 50 (card 3, timeslot 1). -/
theorem line_decomposition_witness :
    0 ≤ get_timeslot_from_line 50 ∧
    get_timeslot_from_line 50 ≤ 23 ∧
    (get_card_from_line 50 - 1) * 24 + get_timeslot_from_line 50 + 1 = 50 ∧
    (∀ c t, 0 ≤ t → t ≤ 23 → (c - 1) * 24 + t + 1 = 50 →
      c = get_card_from_line 50 ∧ t = get_timeslot_from_line 50) :=
  line_decomposition 50 (by norm_num)

end MapsCas
